import Mathlib

/-!
# RemindX — verification of the alert state machine

Shallow embedding of `src/RemindX_Final.ino`.

Modelling conventions:
* Digital levels are `Bool` with `true = HIGH`, `false = LOW`.
* The monotonic clock `millis()` is a `Nat` (milliseconds).  Within one
  `loop()` iteration (a *tick*) `millis()` is read once into `now`; the
  calls to `millis()` inside `buttonPressed` during the same tick are
  modelled as returning that same `now` (the sub-millisecond drift inside
  a tick is not observable at the 40 ms debounce granularity).
  `unsigned long` subtraction `now - t` is modelled by truncated `Nat`
  subtraction, which agrees with the C code whenever `t ≤ now` (the clock
  is monotone and all stored timestamps are earlier `now` values; the
  49-day wraparound of `unsigned long` is out of scope).
* The RFID reader is modelled by an optional scanned UID per tick
  (`Option (List Nat)`): the code reads the card at most once per tick
  (either in the alert branch or in the idle branch, never both, because
  of the early `return`s).
* The ultrasonic echo is modelled by the pulse width in microseconds
  (`0` = `pulseIn` timeout), consumed only when the code actually calls
  `readDistanceCM`.
* Pin writes are latched in the state (`ledPin`, `buzzerPin`), since
  `digitalWrite` only changes the output level.
-/

namespace RemindX

/-- Stored UID `uid1` (line 16): `{0x07, 0xB6, 0x52, 0x8D}`. -/
def uid1 : List Nat := [0x07, 0xB6, 0x52, 0x8D]

/-- Stored UID `uid2` (line 17): `{0xFA, 0x8E, 0xFD, 0xC6}`. -/
def uid2 : List Nat := [0xFA, 0x8E, 0xFD, 0xC6]

/-- Stored UID `uid3` (line 18): `{0xDC, 0xAC, 0xC1, 0x01}`. -/
def uid3 : List Nat := [0xDC, 0xAC, 0xC1, 0x01]

/-- `compareUID` (lines 39-42): exact byte-wise comparison of the first
`size` bytes.  Out-of-range reads of the scanned buffer are modelled by
`getD _ 0` (the code always compares `size = 4` against 4-byte UIDs). -/
def compareUID (a b : List Nat) (size : Nat) : Bool :=
  (List.range size).all fun i => a.getD i 0 == b.getD i 0

/-- Constant `motionCooldown` (line 23): 1500 ms. -/
def motionCooldown : Nat := 1500

/-- Constant `MOTION_THRESHOLD_CM` (line 24): 20 cm. -/
def MOTION_THRESHOLD_CM : Int := 20

/-- Constant `vipDuration` (line 31): 30000 ms. -/
def vipDuration : Nat := 30000

/-- Constant `buzzerInterval` (line 36): 1000 ms. -/
def buzzerInterval : Nat := 1000

/-- `readDistanceCM` (lines 44-54) as a function of the echo pulse width
`dur` in microseconds (`pulseIn` result; `0` = timeout).  The C code
computes `dur * 0.034 / 2` in `double` arithmetic and truncates to
`long`.  For every `dur ≤ 50000` (the `pulseIn` timeout bound) that
truncation equals `⌊17 * dur / 1000⌋`: the nearest `double` to `0.034`
is `4899916394579100 / 2^57 = 0.034 + ε` with `ε ≈ 2.4e-18`, the two
rounding errors of the product and the exact halving stay below
`5e-12`, and `17 * dur / 1000` is never within `5e-12` of crossing an
integer from below (when `1000 ∣ 17 * dur` the `+ε` excess dominates
the rounding error, keeping the value at or above the integer), so the
floor is unchanged. -/
def readDistanceCM (dur : Nat) : Int :=
  if dur = 0 then -1 else Int.ofNat (17 * dur / 1000)

/-- The `static` locals of `buttonPressed` (lines 57-58):
`lastBounce` and `lastState` (`true = HIGH`; initialised to `0` and
`HIGH`). -/
structure BtnState where
  lastBounce : Nat
  lastState : Bool
deriving DecidableEq, Repr

/-- One call of `buttonPressed()` (lines 56-72) with raw level `cur`
and clock `now`: returns the updated static state and the result. -/
def buttonPressedStep (s : BtnState) (cur : Bool) (now : Nat) : BtnState × Bool :=
  let s1 := if cur ≠ s.lastState then { lastBounce := now, lastState := cur } else s
  if 40 < now - s1.lastBounce ∧ cur = false then
    ({ s1 with lastState := false }, true)
  else
    (s1, false)

/-- The complete mutable program state: globals (lines 21-36), the
`static` locals of `buttonPressed`, and the latched output pins. -/
structure SysState where
  alertActive : Bool
  lastMotionTime : Nat
  card1Scanned : Bool
  card2Scanned : Bool
  card3Scanned : Bool
  vipMode : Bool
  vipStartTime : Nat
  buzzerState : Bool
  lastBuzzerToggle : Nat
  btn : BtnState
  ledPin : Bool
  buzzerPin : Bool
deriving DecidableEq, Repr

/-- The external inputs consumed by one `loop()` iteration. -/
structure TickInput where
  now : Nat
  rawButton : Bool
  card : Option (List Nat)
  pulse : Nat
deriving DecidableEq, Repr

/-- Lines 96-118 of `loop()`: manual VIP activation via the (already
computed) first `buttonPressed()` result, automatic VIP activation when
all three cards are scanned, and VIP cooldown expiration. -/
def vipUpdate (s : SysState) (now : Nat) (pressed : Bool) : SysState :=
  let s1 :=
    if pressed ∧ ¬s.vipMode then
      { s with vipMode := true, vipStartTime := now }
    else s
  let s2 :=
    if ¬s1.vipMode ∧ s1.card1Scanned ∧ s1.card2Scanned ∧ s1.card3Scanned then
      { s1 with vipMode := true, vipStartTime := now }
    else s1
  if s2.vipMode ∧ vipDuration < now - s2.vipStartTime then
    let s3 := { s2 with vipMode := false, card1Scanned := false,
                        card2Scanned := false, card3Scanned := false }
    if ¬s3.alertActive then { s3 with ledPin := false } else s3
  else s2

/-- Lines 120-158 of `loop()`: the `alertActive` branch, given the
(already computed) second `buttonPressed()` result `pressed2`.  All
three sub-branches `return`, so the tick ends here. -/
def alertTick (s : SysState) (i : TickInput) (pressed2 : Bool) : SysState :=
  if pressed2 then
    { s with alertActive := false, buzzerPin := false, ledPin := s.vipMode }
  else
    match i.card with
    | some uid =>
      if compareUID uid uid1 4 ∨ compareUID uid uid2 4 ∨ compareUID uid uid3 4 then
        { s with alertActive := false, buzzerPin := false, ledPin := true }
      else s
    | none =>
      let s1 :=
        if ¬s.vipMode then
          if buzzerInterval ≤ i.now - s.lastBuzzerToggle then
            { s with buzzerState := ¬s.buzzerState, buzzerPin := ¬s.buzzerState,
                     lastBuzzerToggle := i.now }
          else s
        else { s with buzzerPin := false }
      { s1 with ledPin := true }

/-- Lines 160-204 of `loop()`: the non-alert part — idle card scan
(records matches into the scan registry, lights the LED and resets the
motion cooldown for *any* card, then `return`s) and otherwise motion
detection after the cooldown. -/
def idleTick (s : SysState) (i : TickInput) : SysState :=
  match i.card with
  | some uid =>
    let s1 := if compareUID uid uid1 4 then { s with card1Scanned := true } else s
    let s2 := if compareUID uid uid2 4 then { s1 with card2Scanned := true } else s1
    let s3 := if compareUID uid uid3 4 then { s2 with card3Scanned := true } else s2
    { s3 with ledPin := true, lastMotionTime := i.now }
  | none =>
    if motionCooldown < i.now - s.lastMotionTime then
      let dist := readDistanceCM i.pulse
      if 0 < dist ∧ dist ≤ MOTION_THRESHOLD_CM then
        if ¬s.vipMode then
          { s with alertActive := true, buzzerState := true, lastBuzzerToggle := i.now,
                   buzzerPin := true, ledPin := true, lastMotionTime := i.now }
        else
          { s with ledPin := true, lastMotionTime := i.now }
      else s
    else s

/-- One full `loop()` iteration (lines 93-205).  `buttonPressed()` is
called once unconditionally (line 97) and, when `alertActive`, a second
time (line 122) on the updated `static` state; both calls observe the
tick's raw level and clock. -/
def tick (s : SysState) (i : TickInput) : SysState :=
  let b1 := buttonPressedStep s.btn i.rawButton i.now
  let s1 := vipUpdate { s with btn := b1.1 } i.now b1.2
  if s1.alertActive then
    let b2 := buttonPressedStep s1.btn i.rawButton i.now
    alertTick { s1 with btn := b2.1 } i b2.2
  else
    idleTick s1 i

/-- Iterated ticks over a list of inputs. -/
def run (s : SysState) (l : List TickInput) : SysState :=
  l.foldl tick s

/-- The state after `setup()` (lines 75-90): all globals at their
initialisers (lines 21-36), `buttonPressed`'s statics at `0`/`HIGH`,
both output pins driven LOW (lines 86-87). -/
def initState : SysState :=
  { alertActive := false, lastMotionTime := 0, card1Scanned := false,
    card2Scanned := false, card3Scanned := false, vipMode := false,
    vipStartTime := 0, buzzerState := false, lastBuzzerToggle := 0,
    btn := { lastBounce := 0, lastState := true },
    ledPin := false, buzzerPin := false }

/-- The three stored UIDs are pairwise distinct. -/
theorem uids_distinct :
    compareUID uid1 uid2 4 = false ∧ compareUID uid1 uid3 4 = false ∧
    compareUID uid2 uid3 4 = false ∧ compareUID uid2 uid1 4 = false ∧
    compareUID uid3 uid1 4 = false ∧ compareUID uid3 uid2 4 = false := by
  decide

/-- `buttonPressed` never fires while the raw level is HIGH. -/
@[simp] theorem buttonPressedStep_high (s : BtnState) (now : Nat) :
    (buttonPressedStep s true now).2 = false := by
  unfold buttonPressedStep
  split_ifs <;> simp_all

/-- With the level HIGH and no pending level change, `buttonPressed` is a no-op. -/
theorem buttonPressedStep_high_id (s : BtnState) (now : Nat) (hl : s.lastState = true) :
    buttonPressedStep s true now = (s, false) := by
  unfold buttonPressedStep
  split_ifs <;> simp_all

/-- With the level LOW, stable (no change) and past the 40 ms window,
`buttonPressed` fires and leaves its static state unchanged. -/
theorem buttonPressedStep_fire (s : BtnState) (now : Nat)
    (hl : s.lastState = false) (hb : 40 < now - s.lastBounce) :
    buttonPressedStep s false now = (s, true) := by
  unfold buttonPressedStep
  cases s
  split_ifs <;> simp_all

/-- The VIP phase (lines 96-118) does not change `alertActive`. -/
@[simp] theorem vipUpdate_alertActive (s : SysState) (now : Nat) (p : Bool) :
    (vipUpdate s now p).alertActive = s.alertActive := by
  obtain ⟨aA, lMT, c1, c2, c3, vM, vST, bS, lBT, bt, led, buzz⟩ := s
  unfold vipUpdate
  cases p <;> cases vM <;> cases c1 <;> cases c2 <;> cases c3 <;> simp <;> split_ifs <;> simp_all

/-- The VIP phase (lines 96-118) does not change `buzzerPin`. -/
@[simp] theorem vipUpdate_buzzerPin (s : SysState) (now : Nat) (p : Bool) :
    (vipUpdate s now p).buzzerPin = s.buzzerPin := by
  obtain ⟨aA, lMT, c1, c2, c3, vM, vST, bS, lBT, bt, led, buzz⟩ := s
  unfold vipUpdate
  cases p <;> cases vM <;> cases c1 <;> cases c2 <;> cases c3 <;> simp <;> split_ifs <;> simp_all

/-- The VIP phase (lines 96-118) does not change `buzzerState`. -/
@[simp] theorem vipUpdate_buzzerState (s : SysState) (now : Nat) (p : Bool) :
    (vipUpdate s now p).buzzerState = s.buzzerState := by
  obtain ⟨aA, lMT, c1, c2, c3, vM, vST, bS, lBT, bt, led, buzz⟩ := s
  unfold vipUpdate
  cases p <;> cases vM <;> cases c1 <;> cases c2 <;> cases c3 <;> simp <;> split_ifs <;> simp_all

/-- The VIP phase (lines 96-118) does not change `lastBuzzerToggle`. -/
@[simp] theorem vipUpdate_lastBuzzerToggle (s : SysState) (now : Nat) (p : Bool) :
    (vipUpdate s now p).lastBuzzerToggle = s.lastBuzzerToggle := by
  obtain ⟨aA, lMT, c1, c2, c3, vM, vST, bS, lBT, bt, led, buzz⟩ := s
  unfold vipUpdate
  cases p <;> cases vM <;> cases c1 <;> cases c2 <;> cases c3 <;> simp <;> split_ifs <;> simp_all

/-- The VIP phase (lines 96-118) does not change `lastMotionTime`. -/
@[simp] theorem vipUpdate_lastMotionTime (s : SysState) (now : Nat) (p : Bool) :
    (vipUpdate s now p).lastMotionTime = s.lastMotionTime := by
  obtain ⟨aA, lMT, c1, c2, c3, vM, vST, bS, lBT, bt, led, buzz⟩ := s
  unfold vipUpdate
  cases p <;> cases vM <;> cases c1 <;> cases c2 <;> cases c3 <;> simp <;> split_ifs <;> simp_all

/-- The VIP phase (lines 96-118) does not change `btn`. -/
@[simp] theorem vipUpdate_btn (s : SysState) (now : Nat) (p : Bool) :
    (vipUpdate s now p).btn = s.btn := by
  obtain ⟨aA, lMT, c1, c2, c3, vM, vST, bS, lBT, bt, led, buzz⟩ := s
  unfold vipUpdate
  cases p <;> cases vM <;> cases c1 <;> cases c2 <;> cases c3 <;> simp <;> split_ifs <;> simp_all

/-- The alert branch (lines 120-158) does not change `vipMode`. -/
@[simp] theorem alertTick_vipMode (s : SysState) (i : TickInput) (p : Bool) :
    (alertTick s i p).vipMode = s.vipMode := by
  unfold alertTick
  cases hc : i.card <;> simp only [hc] <;> split_ifs <;> simp_all

/-- The alert branch (lines 120-158) does not change `vipStartTime`. -/
@[simp] theorem alertTick_vipStartTime (s : SysState) (i : TickInput) (p : Bool) :
    (alertTick s i p).vipStartTime = s.vipStartTime := by
  unfold alertTick
  cases hc : i.card <;> simp only [hc] <;> split_ifs <;> simp_all

/-- The alert branch (lines 120-158) does not change `lastMotionTime`. -/
@[simp] theorem alertTick_lastMotionTime (s : SysState) (i : TickInput) (p : Bool) :
    (alertTick s i p).lastMotionTime = s.lastMotionTime := by
  unfold alertTick
  cases hc : i.card <;> simp only [hc] <;> split_ifs <;> simp_all

/-- The alert branch (lines 120-158) does not change `card1Scanned`. -/
@[simp] theorem alertTick_card1Scanned (s : SysState) (i : TickInput) (p : Bool) :
    (alertTick s i p).card1Scanned = s.card1Scanned := by
  unfold alertTick
  cases hc : i.card <;> simp only [hc] <;> split_ifs <;> simp_all

/-- The alert branch (lines 120-158) does not change `card2Scanned`. -/
@[simp] theorem alertTick_card2Scanned (s : SysState) (i : TickInput) (p : Bool) :
    (alertTick s i p).card2Scanned = s.card2Scanned := by
  unfold alertTick
  cases hc : i.card <;> simp only [hc] <;> split_ifs <;> simp_all

/-- The alert branch (lines 120-158) does not change `card3Scanned`. -/
@[simp] theorem alertTick_card3Scanned (s : SysState) (i : TickInput) (p : Bool) :
    (alertTick s i p).card3Scanned = s.card3Scanned := by
  unfold alertTick
  cases hc : i.card <;> simp only [hc] <;> split_ifs <;> simp_all

/-- The alert branch (lines 120-158) does not change `btn`. -/
@[simp] theorem alertTick_btn (s : SysState) (i : TickInput) (p : Bool) :
    (alertTick s i p).btn = s.btn := by
  unfold alertTick
  cases hc : i.card <;> simp only [hc] <;> split_ifs <;> simp_all

/-- The idle branch (lines 160-204) does not change `vipMode`. -/
@[simp] theorem idleTick_vipMode (s : SysState) (i : TickInput) :
    (idleTick s i).vipMode = s.vipMode := by
  unfold idleTick
  cases hc : i.card <;> simp only [hc] <;> split_ifs <;> simp_all

/-- The idle branch (lines 160-204) does not change `vipStartTime`. -/
@[simp] theorem idleTick_vipStartTime (s : SysState) (i : TickInput) :
    (idleTick s i).vipStartTime = s.vipStartTime := by
  unfold idleTick
  cases hc : i.card <;> simp only [hc] <;> split_ifs <;> simp_all

/-- The idle branch (lines 160-204) does not change `btn`. -/
@[simp] theorem idleTick_btn (s : SysState) (i : TickInput) :
    (idleTick s i).btn = s.btn := by
  unfold idleTick
  cases hc : i.card <;> simp only [hc] <;> split_ifs <;> simp_all

/-- The VIP phase is the identity when VIP is off, the button did not fire
and the scan registry is not full. -/
theorem vipUpdate_id_of_idle (s : SysState) (now : Nat) (p : Bool)
    (hv : s.vipMode = false) (hp : p = false)
    (hreg : ¬(s.card1Scanned = true ∧ s.card2Scanned = true ∧ s.card3Scanned = true)) :
    vipUpdate s now p = s := by
  obtain ⟨aA, lMT, c1, c2, c3, vM, vST, bS, lBT, bt, led, buzz⟩ := s
  unfold vipUpdate
  cases c1 <;> cases c2 <;> cases c3 <;> simp_all

/-- The VIP phase is the identity while VIP is on and not yet expired. -/
theorem vipUpdate_id_of_vip (s : SysState) (now : Nat) (p : Bool)
    (hv : s.vipMode = true) (hexp : now - s.vipStartTime ≤ vipDuration) :
    vipUpdate s now p = s := by
  have hnl : ¬(vipDuration < now - s.vipStartTime) := Nat.not_lt.mpr hexp
  obtain ⟨aA, lMT, c1, c2, c3, vM, vST, bS, lBT, bt, led, buzz⟩ := s
  unfold vipUpdate
  simp_all

/-- When VIP is off and a trigger is present (button fire or full registry),
the VIP phase activates VIP with `vipStartTime = now` and changes nothing else. -/
theorem vipUpdate_activates (s : SysState) (now : Nat) (p : Bool)
    (hv : s.vipMode = false)
    (htrig : p = true ∨ (s.card1Scanned = true ∧ s.card2Scanned = true ∧ s.card3Scanned = true)) :
    vipUpdate s now p = { s with vipMode := true, vipStartTime := now } := by
  obtain ⟨aA, lMT, c1, c2, c3, vM, vST, bS, lBT, bt, led, buzz⟩ := s
  unfold vipUpdate
  cases p <;> cases c1 <;> cases c2 <;> cases c3 <;> simp_all [vipDuration]

/-- With no card this tick, the idle branch leaves the scan registry alone. -/
theorem idleTick_flags_of_none (s : SysState) (i : TickInput) (hc : i.card = none) :
    (idleTick s i).card1Scanned = s.card1Scanned ∧
    (idleTick s i).card2Scanned = s.card2Scanned ∧
    (idleTick s i).card3Scanned = s.card3Scanned := by
  unfold idleTick
  simp only [hc]
  split_ifs <;> simp_all

/-- While Alerting, the alert branch keeps the invariant "buzzer HIGH only
if Alerting": every path that clears `alertActive` drives the buzzer LOW. -/
theorem alertTick_inv (s : SysState) (i : TickInput) (p : Bool)
    (ha : s.alertActive = true) :
    (alertTick s i p).buzzerPin = true → (alertTick s i p).alertActive = true := by
  unfold alertTick
  cases hc : i.card <;> simp only [hc] <;> split_ifs <;> simp_all

/-- While Idle with the buzzer LOW, the idle branch keeps the invariant:
the only path that raises the buzzer also raises the alert flag. -/
theorem idleTick_inv (s : SysState) (i : TickInput)
    (hb : s.buzzerPin = false) :
    (idleTick s i).buzzerPin = true → (idleTick s i).alertActive = true := by
  unfold idleTick
  cases hc : i.card <;> simp only [hc] <;> split_ifs <;> simp_all



/-- An idle-branch scan of a card matching neither `uid2` nor `uid3`
leaves those two registry flags alone. -/
theorem idleTick_flags_of_card (s : SysState) (i : TickInput) (u : List Nat)
    (hc : i.card = some u)
    (h2 : compareUID u uid2 4 = false) (h3 : compareUID u uid3 4 = false) :
    (idleTick s i).card2Scanned = s.card2Scanned ∧
    (idleTick s i).card3Scanned = s.card3Scanned := by
  unfold idleTick
  simp only [hc]
  split_ifs <;> simp_all

/-- Expired VIP: the VIP phase clears the mode and the whole registry, and
retracts the LED when no alert is active. -/
theorem vipUpdate_expires (s : SysState) (now : Nat) (p : Bool)
    (hv : s.vipMode = true) (hexp : vipDuration < now - s.vipStartTime) :
    (vipUpdate s now p).vipMode = false ∧
    (vipUpdate s now p).card1Scanned = false ∧
    (vipUpdate s now p).card2Scanned = false ∧
    (vipUpdate s now p).card3Scanned = false ∧
    (s.alertActive = false → (vipUpdate s now p).ledPin = false) := by
  obtain ⟨aA, lMT, c1, c2, c3, vM, vST, bS, lBT, bt, led, buzz⟩ := s
  unfold vipUpdate
  cases aA <;> simp_all

/-- If the VIP phase turns `vipMode` off, it has also cleared the registry. -/
theorem vipUpdate_vipMode_false (s : SysState) (now : Nat) (p : Bool)
    (hv : s.vipMode = true) (hres : (vipUpdate s now p).vipMode = false) :
    (vipUpdate s now p).card1Scanned = false ∧
    (vipUpdate s now p).card2Scanned = false ∧
    (vipUpdate s now p).card3Scanned = false := by
  by_cases hexp : vipDuration < now - s.vipStartTime
  · have h := vipUpdate_expires s now p hv hexp
    exact ⟨h.2.1, h.2.2.1, h.2.2.2.1⟩
  · rw [vipUpdate_id_of_vip s now p hv (Nat.not_lt.mp hexp)] at hres
    exact absurd hres (by simp [hv])

/-- C5 (confirmed): with all three allow-listed credentials registered while
VIP is off, the next tick activates VIP and stamps `vipStartTime = now`;
and a trace that only ever scans `uid1` (and never presses the button)
never reaches VIP by itself. -/
theorem C5_auto_vip_activation :
    (∀ (s : SysState) (i : TickInput),
        s.vipMode = false → s.card1Scanned = true → s.card2Scanned = true →
        s.card3Scanned = true →
        (tick s i).vipMode = true ∧ (tick s i).vipStartTime = i.now) ∧
    (∀ (s : SysState) (l : List TickInput),
        s.vipMode = false → s.card2Scanned = false → s.card3Scanned = false →
        (∀ j ∈ l, j.rawButton = true ∧ (j.card = none ∨ j.card = some uid1)) →
        (run s l).vipMode = false) := by
  constructor
  · intro s i hv h1 h2 h3
    have hact := vipUpdate_activates
      { s with btn := (buttonPressedStep s.btn i.rawButton i.now).1 } i.now
      (buttonPressedStep s.btn i.rawButton i.now).2 (by simpa using hv)
      (Or.inr (by simp [h1, h2, h3]))
    simp only [tick, hact]
    split <;> simp
  · intro s l hv h2 h3 hinp
    induction l generalizing s with
    | nil => simpa [run] using hv
    | cons j t ih =>
      obtain ⟨hbtn, hcard⟩ := hinp j (List.mem_cons_self j t)
      have hb1 : (buttonPressedStep s.btn j.rawButton j.now).2 = false := by
        simp [hbtn]
      have hid := vipUpdate_id_of_idle
        { s with btn := (buttonPressedStep s.btn j.rawButton j.now).1 } j.now
        (buttonPressedStep s.btn j.rawButton j.now).2 (by simpa using hv) hb1
        (by simp [h2])
      have hstep : (tick s j).vipMode = false ∧ (tick s j).card2Scanned = false ∧
          (tick s j).card3Scanned = false := by
        simp only [tick, hid]
        split
        · simp [hv, h2, h3]
        · have d12 : compareUID uid1 uid2 4 = false := by decide
          have d13 : compareUID uid1 uid3 4 = false := by decide
          unfold idleTick
          rcases hcard with hc | hc <;> simp only [hc] <;> split_ifs <;> simp_all
      have hrest := ih (tick s j) hstep.1 hstep.2.1 hstep.2.2
        (fun x hx => hinp x (List.mem_cons_of_mem _ hx))
      simpa [run] using hrest

/-- Concrete state for the C5 witness: all three cards scanned, VIP off. -/
def c5wState : SysState := { initState with card1Scanned := true, card2Scanned := true, card3Scanned := true }

/-- Concrete quiet tick input for the C5 witness. -/
def c5wInput : TickInput := { now := 7, rawButton := true, card := none, pulse := 0 }

/-- Concrete uid1-scan tick input for the C5 witness. -/
def c5wScan : TickInput := { now := 9, rawButton := true, card := some uid1, pulse := 0 }

/-- C5 witness: a concrete instantiation of both conjuncts. -/
theorem C5_auto_vip_activation_witness :
    (c5wState.vipMode = false ∧ (tick c5wState c5wInput).vipMode = true) ∧
    (initState.vipMode = false ∧ (run initState [c5wScan]).vipMode = false) := by
  refine ⟨⟨rfl, (C5_auto_vip_activation.1 c5wState c5wInput rfl rfl rfl rfl).1⟩, ⟨rfl, ?_⟩⟩
  exact C5_auto_vip_activation.2 initState [c5wScan] rfl rfl rfl
    (by intro j hj; simp at hj; simp [hj, c5wScan])



/-- C6 (confirmed): on a tick where VIP is on and `now - vipStartTime >
30000`, the expiration step clears `vipMode` and all three registry flags
and, when no alert is active, forces the LED off; and over a whole tick,
every true→false transition of `vipMode` leaves the registry cleared (end
of tick, with no card scanned that tick). -/
theorem C6_vip_expiration_clears_registry :
    (∀ (s : SysState) (now : Nat) (p : Bool),
        s.vipMode = true → vipDuration < now - s.vipStartTime →
        (vipUpdate s now p).vipMode = false ∧
        (vipUpdate s now p).card1Scanned = false ∧
        (vipUpdate s now p).card2Scanned = false ∧
        (vipUpdate s now p).card3Scanned = false ∧
        (s.alertActive = false → (vipUpdate s now p).ledPin = false)) ∧
    (∀ (s : SysState) (i : TickInput),
        s.vipMode = true → (tick s i).vipMode = false → i.card = none →
        (tick s i).card1Scanned = false ∧ (tick s i).card2Scanned = false ∧
        (tick s i).card3Scanned = false) := by
  refine ⟨vipUpdate_expires, ?_⟩
  intro s i hv hres hc
  simp only [tick] at hres ⊢
  split at hres
  case isTrue halert =>
    split
    case isTrue h' =>
      have hvm : (vipUpdate { s with btn := (buttonPressedStep s.btn i.rawButton i.now).1 }
          i.now (buttonPressedStep s.btn i.rawButton i.now).2).vipMode = false := by
        simpa using hres
      have hfl := vipUpdate_vipMode_false
        { s with btn := (buttonPressedStep s.btn i.rawButton i.now).1 } i.now
        (buttonPressedStep s.btn i.rawButton i.now).2 (by simpa using hv) hvm
      simp_all
    case isFalse h' => exact absurd halert h'
  case isFalse halert =>
    split
    case isTrue h' => exact absurd h' halert
    case isFalse h' =>
      have hvm : (vipUpdate { s with btn := (buttonPressedStep s.btn i.rawButton i.now).1 }
          i.now (buttonPressedStep s.btn i.rawButton i.now).2).vipMode = false := by
        simpa using hres
      have hfl := vipUpdate_vipMode_false
        { s with btn := (buttonPressedStep s.btn i.rawButton i.now).1 } i.now
        (buttonPressedStep s.btn i.rawButton i.now).2 (by simpa using hv) hvm
      have hnone := idleTick_flags_of_none
        (vipUpdate { s with btn := (buttonPressedStep s.btn i.rawButton i.now).1 } i.now
          (buttonPressedStep s.btn i.rawButton i.now).2) i hc
      simp_all

/-- Concrete VIP state for the C6 witness: VIP on since t=0, all cards
scanned, clock at t=30001. -/
def c6wState : SysState := { initState with vipMode := true, card1Scanned := true, card2Scanned := true, card3Scanned := true, ledPin := true }

/-- Concrete quiet tick input for the C6 witness. -/
def c6wInput : TickInput := { now := 30001, rawButton := true, card := none, pulse := 0 }

/-- C6 witness: a concrete instantiation of both conjuncts. -/
theorem C6_vip_expiration_clears_registry_witness :
    ((vipUpdate c6wState 30001 false).vipMode = false ∧
     (vipUpdate c6wState 30001 false).card1Scanned = false ∧
     (vipUpdate c6wState 30001 false).ledPin = false) ∧
    ((tick c6wState c6wInput).card1Scanned = false ∧
     (tick c6wState c6wInput).card2Scanned = false ∧
     (tick c6wState c6wInput).card3Scanned = false) := by
  constructor
  · have h := C6_vip_expiration_clears_registry.1 c6wState 30001 false rfl (by decide)
    exact ⟨h.1, h.2.1, h.2.2.2.2 rfl⟩
  · exact C6_vip_expiration_clears_registry.2 c6wState c6wInput rfl (by decide) rfl

/-- C10 (confirmed): the invariant "buzzer HIGH implies Alerting" holds at
startup, is preserved by every tick, and therefore holds at the end of
every reachable tick sequence. -/
theorem C10_buzzer_only_when_alerting :
    initState.buzzerPin = false ∧
    (∀ (s : SysState) (i : TickInput),
        (s.buzzerPin = true → s.alertActive = true) →
        ((tick s i).buzzerPin = true → (tick s i).alertActive = true)) ∧
    (∀ (l : List TickInput),
        (run initState l).buzzerPin = true → (run initState l).alertActive = true) := by
  have hstep : ∀ (s : SysState) (i : TickInput),
      (s.buzzerPin = true → s.alertActive = true) →
      ((tick s i).buzzerPin = true → (tick s i).alertActive = true) := by
    intro s i hinv
    simp only [tick]
    split
    case isTrue halert =>
      exact alertTick_inv _ i _ (by simpa using halert)
    case isFalse halert =>
      apply idleTick_inv
      cases hbp : s.buzzerPin
      · simp [hbp]
      · exact absurd (by simpa using hinv hbp) halert
  have hrun : ∀ (l : List TickInput) (s : SysState),
      (s.buzzerPin = true → s.alertActive = true) →
      ((run s l).buzzerPin = true → (run s l).alertActive = true) := by
    intro l
    induction l with
    | nil => intro s h; simpa [run] using h
    | cons j t ih =>
      intro s h
      have := ih (tick s j) (hstep s j h)
      simpa [run] using this
  exact ⟨rfl, hstep, fun l => hrun l initState (by simp [initState])⟩

/-- Concrete motion-trigger input for the C10 witness. -/
def c10wInput : TickInput := { now := 2000, rawButton := true, card := none, pulse := 900 }

/-- C10 witness: after a concrete motion-triggering tick from startup the
buzzer is HIGH, and the invariant then forces `alertActive`. -/
theorem C10_buzzer_only_when_alerting_witness :
    (run initState [c10wInput]).buzzerPin = true ∧
    (run initState [c10wInput]).alertActive = true := by
  refine ⟨by decide, ?_⟩
  exact C10_buzzer_only_when_alerting.2.2 [c10wInput] (by decide)



/-- With VIP on, the idle branch never changes the alert flag (motion only
lights the LED). -/
theorem idleTick_alertActive_of_vip (s : SysState) (i : TickInput)
    (hv : s.vipMode = true) :
    (idleTick s i).alertActive = s.alertActive := by
  unfold idleTick
  cases hc : i.card <;> simp only [hc] <;> split_ifs <;> simp_all

/-- With VIP on, the idle branch never changes the buzzer pin. -/
theorem idleTick_buzzerPin_of_vip (s : SysState) (i : TickInput)
    (hv : s.vipMode = true) :
    (idleTick s i).buzzerPin = s.buzzerPin := by
  unfold idleTick
  cases hc : i.card <;> simp only [hc] <;> split_ifs <;> simp_all

/-- With VIP on, the alert branch never raises the buzzer pin. -/
theorem alertTick_buzzer_of_vip (s : SysState) (i : TickInput) (p : Bool)
    (hv : s.vipMode = true) :
    (alertTick s i p).buzzerPin = true → s.buzzerPin = true := by
  unfold alertTick
  cases hc : i.card <;> simp only [hc] <;> split_ifs <;> simp_all

/-- C1 (code bug): `buttonPressed` does not latch "already reported".  With
the level continuously LOW after a single press at t=100 (one level
change, then held), the poll at t=150 fires and the poll at t=160 fires
again — two `true`s for one physical press, with no release in between. -/
theorem C1_held_button_refires_each_poll :
    (buttonPressedStep { lastBounce := 0, lastState := true } false 100).2 = false ∧
    (buttonPressedStep
      (buttonPressedStep { lastBounce := 0, lastState := true } false 100).1 false 150).2
      = true ∧
    (buttonPressedStep
      (buttonPressedStep
        (buttonPressedStep { lastBounce := 0, lastState := true } false 100).1 false 150).1
      false 160).2 = true := by
  decide

/-- Concrete expired-VIP state for the C2 counterexample: VIP on since t=0. -/
def c2cState : SysState := { initState with vipMode := true }

/-- Concrete tick input for the C2 counterexample: quiet tick at t=40000
with an object at 15 cm. -/
def c2cInput : TickInput := { now := 40000, rawButton := true, card := none, pulse := 900 }

/-- C2 counterexample: `vipMode` is true at the start of the tick, yet the
tick ends Alerting with the buzzer HIGH (VIP expires mid-tick, then motion
is evaluated with VIP already off). -/
theorem C2_counterexample :
    c2cState.vipMode = true ∧ c2cState.alertActive = false ∧
    c2cState.buzzerPin = false ∧
    (tick c2cState c2cInput).alertActive = true ∧
    (tick c2cState c2cInput).buzzerPin = true := by
  decide

/-- C2 (amended): on a tick that starts with VIP on and *not yet expired*,
the state never transitions to Alerting, the buzzer is never driven HIGH,
and a motion detection only lights the LED and resets `lastMotionTime`. -/
theorem C2_vip_suppresses_alerts (s : SysState) (i : TickInput)
    (hv : s.vipMode = true) (hexp : i.now - s.vipStartTime ≤ vipDuration) :
    ((tick s i).alertActive = true → s.alertActive = true) ∧
    ((tick s i).buzzerPin = true → s.buzzerPin = true) ∧
    (s.alertActive = false → i.card = none →
      motionCooldown < i.now - s.lastMotionTime →
      0 < readDistanceCM i.pulse → readDistanceCM i.pulse ≤ MOTION_THRESHOLD_CM →
      (tick s i).ledPin = true ∧ (tick s i).lastMotionTime = i.now ∧
      (tick s i).alertActive = false) := by
  have hid := vipUpdate_id_of_vip
    { s with btn := (buttonPressedStep s.btn i.rawButton i.now).1 } i.now
    (buttonPressedStep s.btn i.rawButton i.now).2 (by simpa using hv) (by simpa using hexp)
  refine ⟨?_, ?_, ?_⟩
  · simp only [tick, hid]
    split
    case isTrue h => intro _; simpa using h
    case isFalse h =>
      rw [idleTick_alertActive_of_vip _ i (by simpa using hv)]
      intro hh
      simpa using hh
  · simp only [tick, hid]
    split
    case isTrue h =>
      intro hb
      have hb2 := alertTick_buzzer_of_vip _ i _ (by simpa using hv) hb
      simpa using hb2
    case isFalse h =>
      rw [idleTick_buzzerPin_of_vip _ i (by simpa using hv)]
      intro hh
      simpa using hh
  · intro ha hc hcool hd1 hd2
    simp only [tick, hid]
    split
    case isTrue h => exact absurd (by simpa using h : s.alertActive = true) (by simp [ha])
    case isFalse h =>
      unfold idleTick
      simp only [hc]
      rw [if_pos (by simpa using hcool)]
      simp only [readDistanceCM]
      rw [if_pos ⟨by simpa [readDistanceCM] using hd1, by simpa [readDistanceCM] using hd2⟩]
      rw [if_neg (by simp [hv])]
      simp [ha]

/-- Concrete live-VIP state for the C2 witness: VIP on since t=0, clock at
t=2000, object at 15 cm. -/
def c2wState : SysState := { initState with vipMode := true }

/-- Concrete tick input for the C2 witness. -/
def c2wInput : TickInput := { now := 2000, rawButton := true, card := none, pulse := 900 }

/-- C2 witness: concrete instantiation of the amended theorem. -/
theorem C2_vip_suppresses_alerts_witness :
    c2wState.vipMode = true ∧ 2000 - c2wState.vipStartTime ≤ vipDuration ∧
    (tick c2wState c2wInput).alertActive = false ∧
    (tick c2wState c2wInput).buzzerPin = false ∧
    (tick c2wState c2wInput).ledPin = true ∧
    (tick c2wState c2wInput).lastMotionTime = 2000 := by
  have h := C2_vip_suppresses_alerts c2wState c2wInput rfl (by decide)
  have h3 := h.2.2 rfl rfl (by decide) (by decide) (by decide)
  refine ⟨rfl, by decide, h3.2.2, ?_, h3.1, h3.2.1⟩
  cases hb : (tick c2wState c2wInput).buzzerPin
  · rfl
  · exact absurd (h.2.1 hb) (by decide)



/-- C3 counterexample: the conversion truncates and can return a zero
distance.  A 10 µs pulse yields distance 0 (the claim says zero is never
returned), and a 100 µs pulse yields 1 cm, not the exact value
`100 * 0.034 / 2 = 1.7` cm. -/
theorem C3_counterexample :
    readDistanceCM 10 = 0 ∧
    ((readDistanceCM 100 : ℚ) ≠ (100 : ℚ) * (34 / 1000) / 2) := by
  constructor
  · decide
  · norm_num [readDistanceCM]

/-- C3 (amended): for every pulse width `P ≤ 50000` µs, a timeout (`P = 0`)
yields the sentinel `-1` (never a valid distance, which is always ≥ 0),
and a positive pulse yields the *truncated* conversion
`⌊P * 0.034 / 2⌋ = ⌊17 P / 1000⌋` cm — which is 0 exactly for the pulses
`1 ≤ P ≤ 58`, so a zero distance can be returned. -/
theorem C3_truncated_conversion (P : Nat) (hP : P ≤ 50000) :
    (P = 0 → readDistanceCM P = -1) ∧
    (0 < P → readDistanceCM P = ⌊(P : ℚ) * (34 / 1000) / 2⌋) ∧
    (readDistanceCM P < 0 ↔ P = 0) ∧
    (readDistanceCM P = 0 ↔ 0 < P ∧ P ≤ 58) := by
  refine ⟨fun h0 => by simp [readDistanceCM, h0], fun hpos => ?_, ?_, ?_⟩
  · have h1 : ((P : ℚ) * (34 / 1000) / 2) = (((17 * P : ℕ) : ℤ) : ℚ) / ((1000 : ℕ) : ℚ) := by
      push_cast
      ring
    rw [h1, Rat.floor_intCast_div_natCast]
    rw [readDistanceCM, if_neg (Nat.pos_iff_ne_zero.mp hpos)]
    rw [Int.ofNat_eq_coe, Int.natCast_div]
  · rcases Nat.eq_zero_or_pos P with h | h
    · simp [readDistanceCM, h]
    · simp only [readDistanceCM, if_neg (Nat.pos_iff_ne_zero.mp h)]
      constructor
      · intro hlt
        exact absurd hlt (by exact not_lt.mpr (Int.ofNat_nonneg _))
      · intro h0
        exact absurd h0 (Nat.pos_iff_ne_zero.mp h)
  · rcases Nat.eq_zero_or_pos P with h | h
    · simp [readDistanceCM, h]
    · simp only [readDistanceCM, if_neg (Nat.pos_iff_ne_zero.mp h), Int.ofNat_eq_coe]
      rw [show ((17 * P / 1000 : ℕ) : ℤ) = 0 ↔ 17 * P / 1000 = 0 from Int.natCast_eq_zero]
      rw [Nat.div_eq_zero_iff (by norm_num)]
      omega

/-- C3 witness: concrete instantiation at a 900 µs pulse (15 cm) and at a
timeout. -/
theorem C3_truncated_conversion_witness :
    (900 : Nat) ≤ 50000 ∧
    readDistanceCM 900 = ⌊(900 : ℚ) * (34 / 1000) / 2⌋ ∧
    readDistanceCM 900 = 15 ∧ readDistanceCM 0 = -1 :=
  ⟨by decide, (C3_truncated_conversion 900 (by decide)).2.1 (by decide),
   by decide, (C3_truncated_conversion 0 (by decide)).1 rfl⟩

/-- Concrete idle state and unknown-card input for the C4 counterexample. -/
def c4cInput : TickInput := { now := 5, rawButton := true, card := some [1, 2, 3, 4], pulse := 0 }

/-- C4 counterexample: an unrecognized card scanned while Idle is *not*
inert — the tick drives the LED HIGH (it was LOW) and resets
`lastMotionTime` to `now` (it was 0). -/
theorem C4_counterexample :
    initState.ledPin = false ∧ initState.lastMotionTime = 0 ∧
    (tick initState c4cInput).ledPin = true ∧
    (tick initState c4cInput).lastMotionTime = 5 := by
  decide

/-- C4 (amended): an unrecognized card scanned while Idle (with no button
fire and no VIP activation or expiration on that tick) sets no registry
flag and changes no alert/VIP state, but it *does* drive the LED HIGH and
reset `lastMotionTime` to `now` — any card presence is treated as a
presence signal; everything else is unchanged. -/
theorem C4_unknown_card_presence_signal (s : SysState) (i : TickInput) (u : List Nat)
    (halert : s.alertActive = false) (hvip : s.vipMode = false)
    (hreg : ¬(s.card1Scanned = true ∧ s.card2Scanned = true ∧ s.card3Scanned = true))
    (hraw : i.rawButton = true) (hlast : s.btn.lastState = true)
    (hcard : i.card = some u)
    (h1 : compareUID u uid1 4 = false) (h2 : compareUID u uid2 4 = false)
    (h3 : compareUID u uid3 4 = false) :
    tick s i = { s with ledPin := true, lastMotionTime := i.now } := by
  have hbtn : buttonPressedStep s.btn i.rawButton i.now = (s.btn, false) := by
    rw [hraw]
    exact buttonPressedStep_high_id s.btn i.now hlast
  have hid : vipUpdate { s with btn := s.btn } i.now false = s := by
    have : ({ s with btn := s.btn } : SysState) = s := rfl
    rw [this]
    exact vipUpdate_id_of_idle s i.now false hvip rfl hreg
  simp only [tick, hbtn, hid]
  rw [if_neg (by simp [halert])]
  unfold idleTick
  simp only [hcard]
  rw [if_neg (by simp [h3]), if_neg (by simp [h2]), if_neg (by simp [h1])]

/-- Concrete state with one flag set for the C4 witness. -/
def c4wState : SysState := { initState with card1Scanned := true, ledPin := true }

/-- Concrete unknown-card input for the C4 witness. -/
def c4wInput : TickInput := { now := 77, rawButton := true, card := some [9, 9, 9, 9], pulse := 0 }

/-- C4 witness: concrete instantiation of the amended theorem. -/
theorem C4_unknown_card_presence_signal_witness :
    c4wState.alertActive = false ∧ c4wState.vipMode = false ∧
    tick c4wState c4wInput = { c4wState with ledPin := true, lastMotionTime := 77 } :=
  ⟨rfl, rfl,
   C4_unknown_card_presence_signal c4wState c4wInput [9, 9, 9, 9] rfl rfl
     (by decide) rfl rfl rfl (by decide) (by decide) (by decide)⟩



/-- While VIP is off at tick start, the VIP phase never changes the scan
registry (activation does not touch it, and expiration cannot fire in the
same tick as activation since `vipStartTime` is stamped to `now`). -/
theorem vipUpdate_flags_of_novip (s : SysState) (now : Nat) (p : Bool)
    (hv : s.vipMode = false) :
    (vipUpdate s now p).card1Scanned = s.card1Scanned ∧
    (vipUpdate s now p).card2Scanned = s.card2Scanned ∧
    (vipUpdate s now p).card3Scanned = s.card3Scanned := by
  obtain ⟨aA, lMT, c1, c2, c3, vM, vST, bS, lBT, bt, led, buzz⟩ := s
  unfold vipUpdate
  cases p <;> cases c1 <;> cases c2 <;> cases c3 <;> simp_all [vipDuration]

/-- A matching card scan during the alert branch acknowledges the alert:
buzzer LOW, LED forced HIGH, nothing else touched. -/
theorem alertTick_card_ack (s : SysState) (i : TickInput) (u : List Nat)
    (hc : i.card = some u)
    (hm : compareUID u uid1 4 = true ∨ compareUID u uid2 4 = true ∨
      compareUID u uid3 4 = true) :
    alertTick s i false =
      { s with alertActive := false, buzzerPin := false, ledPin := true } := by
  unfold alertTick
  simp [hc, hm]

/-- Concrete Alerting state for the C7 counterexample (`card2Scanned`
still false) and a `uid2` scan input. -/
def c7cState : SysState := { initState with alertActive := true, buzzerPin := true, buzzerState := true, ledPin := true }

/-- Concrete `uid2`-scan input for the C7 counterexample. -/
def c7cInput : TickInput := { now := 300, rawButton := true, card := some uid2, pulse := 0 }

/-- C7 counterexample: acknowledging an alert by scanning `uid2` does *not*
set the `uid2` registry flag — the alert-branch acknowledgment path never
records into the registry, so the flag stays false if it was false. -/
theorem C7_counterexample :
    c7cState.alertActive = true ∧ c7cState.vipMode = false ∧
    c7cState.card2Scanned = false ∧
    (tick c7cState c7cInput).alertActive = false ∧
    (tick c7cState c7cInput).card2Scanned = false := by
  decide

/-- C7 (amended): a `uid2` scan while Alerting with VIP off and no button
press clears the alert, drives the buzzer LOW and forces the LED HIGH; the
`uid2` registry flag is left *unchanged* (retained if previously set — the
acknowledgment path does not record the scan). -/
theorem C7_card_ack_retains_flag (s : SysState) (i : TickInput)
    (ha : s.alertActive = true) (hvip : s.vipMode = false)
    (hraw : i.rawButton = true) (hcard : i.card = some uid2) :
    (tick s i).alertActive = false ∧ (tick s i).buzzerPin = false ∧
    (tick s i).ledPin = true ∧
    (tick s i).card2Scanned = s.card2Scanned := by
  have hflags := vipUpdate_flags_of_novip
    { s with btn := (buttonPressedStep s.btn i.rawButton i.now).1 } i.now
    (buttonPressedStep s.btn i.rawButton i.now).2 (by simpa using hvip)
  simp only [tick, hraw, buttonPressedStep_high]
  rw [if_pos (by simp [ha])]
  rw [alertTick_card_ack _ i uid2 hcard (Or.inr (Or.inl (by decide)))]
  simp only [hraw] at hflags
  simp_all


/-- Concrete Alerting state with the `uid2` flag already set for the C7
witness ("retained"). -/
def c7wState : SysState := { initState with alertActive := true, buzzerPin := true, card2Scanned := true }

/-- Concrete `uid2`-scan input for the C7 witness. -/
def c7wInput : TickInput := { now := 500, rawButton := true, card := some uid2, pulse := 0 }

/-- C7 witness: concrete instantiation of the amended theorem. -/
theorem C7_card_ack_retains_flag_witness :
    c7wState.alertActive = true ∧ c7wState.vipMode = false ∧
    (tick c7wState c7wInput).alertActive = false ∧
    (tick c7wState c7wInput).buzzerPin = false ∧
    (tick c7wState c7wInput).ledPin = true ∧
    (tick c7wState c7wInput).card2Scanned = c7wState.card2Scanned := by
  have h := C7_card_ack_retains_flag c7wState c7wInput rfl rfl rfl rfl
  exact ⟨rfl, rfl, h.1, h.2.1, h.2.2.1, h.2.2.2⟩

/-- C8 (confirmed): while Alerting, a firing button press wins over any
same-tick card scan: the tick clears the alert, drives the buzzer LOW,
sets the LED to the VIP courtesy level, leaves `lastMotionTime` untouched,
and the whole tick result is independent of the card and pulse inputs
(the card-acknowledgment branch and the idle branches are never reached). -/
theorem C8_button_ack_precedence (s : SysState) (i : TickInput)
    (ha : s.alertActive = true) (hr : i.rawButton = false)
    (hl : s.btn.lastState = false) (hb : 40 < i.now - s.btn.lastBounce) :
    (tick s i).alertActive = false ∧ (tick s i).buzzerPin = false ∧
    (tick s i).ledPin = (tick s i).vipMode ∧
    (tick s i).lastMotionTime = s.lastMotionTime ∧
    tick s i = tick s { i with card := none, pulse := 0 } := by
  obtain ⟨n, rb, c, pl⟩ := i
  subst hr
  have hfire : buttonPressedStep s.btn false n = (s.btn, true) :=
    buttonPressedStep_fire s.btn n hl hb
  simp only [tick, hfire]
  have hbtn2 : (vipUpdate { s with btn := s.btn } n true).btn = s.btn := by simp
  simp only [hbtn2, hfire]
  rw [if_pos (by simp [ha]), if_pos (by simp [ha])]
  unfold alertTick
  simp


/-- Concrete Alerting state (button held LOW, stable, past debounce) and an
input carrying both the firing press and a valid `uid1` scan, for the C8
witness. -/
def c8wState : SysState := { initState with alertActive := true, buzzerPin := true, btn := { lastBounce := 0, lastState := false } }

/-- Concrete input for the C8 witness: button LOW and `uid1` present. -/
def c8wInput : TickInput := { now := 100, rawButton := false, card := some uid1, pulse := 0 }

/-- C8 witness: concrete instantiation of the precedence theorem. -/
theorem C8_button_ack_precedence_witness :
    c8wState.alertActive = true ∧ c8wInput.rawButton = false ∧
    (tick c8wState c8wInput).alertActive = false ∧
    (tick c8wState c8wInput).buzzerPin = false ∧
    tick c8wState c8wInput = tick c8wState { c8wInput with card := none, pulse := 0 } := by
  have h := C8_button_ack_precedence c8wState c8wInput rfl rfl rfl (by decide)
  exact ⟨rfl, rfl, h.1, h.2.1, h.2.2.2.2⟩

/-- Concrete Idle state with the full registry for the C9 counterexample. -/
def c9cState : SysState := { initState with card1Scanned := true, card2Scanned := true, card3Scanned := true }

/-- Concrete quiet motion input (object at 15 cm) for the C9 counterexample. -/
def c9cInput : TickInput := { now := 2000, rawButton := true, card := none, pulse := 900 }

/-- C9 counterexample: all the claim's premises hold (Idle, VIP off, no
button, no card, cooldown elapsed, reading 15 cm) yet the tick does *not*
end Alerting — the full scan registry auto-activates VIP first, which then
suppresses the motion alert in the same tick. -/
theorem C9_counterexample :
    c9cState.alertActive = false ∧ c9cState.vipMode = false ∧
    motionCooldown < 2000 - c9cState.lastMotionTime ∧
    readDistanceCM 900 = 15 ∧
    (tick c9cState c9cInput).alertActive = false ∧
    (tick c9cState c9cInput).buzzerPin = false ∧
    (tick c9cState c9cInput).vipMode = true := by
  decide

/-- C9 (amended): on a tick starting Idle with VIP off, *not all three scan
flags set*, no button press, no card, cooldown elapsed, and a reading in
(0, 20] cm, the tick ends Alerting with buzzer HIGH, blink state
reinitialized (`buzzerState = true`, `lastBuzzerToggle = now`), LED HIGH
and `lastMotionTime = now`. -/
theorem C9_motion_triggers_alert (s : SysState) (i : TickInput)
    (ha : s.alertActive = false) (hvip : s.vipMode = false)
    (hreg : ¬(s.card1Scanned = true ∧ s.card2Scanned = true ∧ s.card3Scanned = true))
    (hraw : i.rawButton = true) (hcard : i.card = none)
    (hcool : motionCooldown < i.now - s.lastMotionTime)
    (hd1 : 0 < readDistanceCM i.pulse)
    (hd2 : readDistanceCM i.pulse ≤ MOTION_THRESHOLD_CM) :
    (tick s i).alertActive = true ∧ (tick s i).buzzerPin = true ∧
    (tick s i).ledPin = true ∧ (tick s i).buzzerState = true ∧
    (tick s i).lastBuzzerToggle = i.now ∧ (tick s i).lastMotionTime = i.now := by
  have hb1 : (buttonPressedStep s.btn i.rawButton i.now).2 = false := by
    simp [hraw]
  have hid := vipUpdate_id_of_idle
    { s with btn := (buttonPressedStep s.btn i.rawButton i.now).1 } i.now
    (buttonPressedStep s.btn i.rawButton i.now).2 (by simpa using hvip) hb1
    (by simpa using hreg)
  simp only [tick, hid]
  rw [if_neg (by simp [ha])]
  unfold idleTick
  simp only [hcard]
  rw [if_pos (by simpa using hcool), if_pos ⟨hd1, hd2⟩, if_pos (by simp [hvip])]
  simp

/-- Concrete startup-like input for the C9 witness. -/
def c9wInput : TickInput := { now := 2000, rawButton := true, card := none, pulse := 900 }

/-- C9 witness: concrete instantiation of the amended theorem from the
startup state. -/
theorem C9_motion_triggers_alert_witness :
    initState.alertActive = false ∧ initState.vipMode = false ∧
    readDistanceCM 900 = 15 ∧
    (tick initState c9wInput).alertActive = true ∧
    (tick initState c9wInput).buzzerPin = true ∧
    (tick initState c9wInput).ledPin = true ∧
    (tick initState c9wInput).lastMotionTime = 2000 := by
  have h := C9_motion_triggers_alert initState c9wInput rfl rfl (by decide) rfl rfl
    (by decide) (by decide) (by decide)
  exact ⟨rfl, rfl, by decide, h.1, h.2.1, h.2.2.1, h.2.2.2.2.2⟩

end RemindX
